import Mathlib

/-!
Shallow embedding of the Risk Assessment Engine
(`src/risk_assessment.py`): uniqueness / k-anonymity computation,
multi-QI-set risk classification, aggregate reporting and the high-risk
selector.  DataFrames are modelled as a column schema plus a list of
rows; a row maps column names to scalar values (string, integer, or
null, the embedding of pandas NaN/None for grouping purposes).  Fallible
operations (pandas KeyError / ValueError) are modelled with
`Except String`.
-/

namespace RiskAssessment

/-- A scalar cell value: string, integer, or missing (pandas NaN/None). -/
inductive Value where
  | str : String → Value
  | int : Int → Value
  | null : Value
deriving DecidableEq, Repr

/-- A record: a mapping from column name to scalar value. -/
def Row : Type := String → Value

/-- A DataFrame: a column schema and an ordered list of rows, indexed
positionally (default RangeIndex). -/
structure DataFrame where
  cols : List String
  rows : List Row

/-- Embedding of `UniquenessResult` (risk_assessment.py lines 14-22). -/
structure UniquenessResult where
  record_index : Nat
  k_anonymity : Nat
  quasi_identifier_values : List (String × Value)
  is_unique : Bool
  is_rare : Bool
  is_safe : Bool
deriving DecidableEq, Repr

/-- Embedding of `RiskScore` (risk_assessment.py lines 25-33).
`risk_score` is modelled over `ℚ`. -/
structure RiskScore where
  record_index : Nat
  risk_level : String
  risk_score : ℚ
  unique_on_qi_count : Nat
  k_anonymity : Nat
  reasoning : String
deriving DecidableEq, Repr

/-- Embedding of `RiskReport` (risk_assessment.py lines 36-50). -/
structure RiskReport where
  total_records : Nat
  high_risk_count : Nat
  medium_risk_count : Nat
  low_risk_count : Nat
  high_risk_percentage : ℚ
  medium_risk_percentage : ℚ
  low_risk_percentage : ℚ
  average_k_anonymity : ℚ
  min_k_anonymity : Nat
  unique_records : List Nat
  rare_records : List Nat
  safe_records : List Nat
deriving DecidableEq, Repr

/-- A Python `for` loop that builds a result list and may raise:
processes the list left to right and propagates the first error. -/
def mapExcept (f : α → Except String β) : List α → Except String (List β)
  | [] => Except.ok []
  | a :: as =>
    match f a with
    | Except.error e => Except.error e
    | Except.ok b =>
      match mapExcept f as with
      | Except.error e => Except.error e
      | Except.ok bs => Except.ok (b :: bs)

/-- Pairs each list element with its positional index starting at `j`
(the embedding of `df.iterrows()` over a RangeIndex). -/
def enumFrom : Nat → List α → List (Nat × α)
  | _, [] => []
  | j, a :: as => (j, a) :: enumFrom (j + 1) as

/-- The tuple of quasi-identifier values of a row (the groupby key). -/
def qiKey (qis : List String) (r : Row) : List Value :=
  qis.map r

/-- Size of the groupby bucket of row `r`: the number of rows sharing
its exact QI-value tuple (`qi_counts[...]` in `calculate_uniqueness`). -/
def kOf (rows : List Row) (qis : List String) (r : Row) : Nat :=
  rows.countP (fun r2 => decide (qiKey qis r2 = qiKey qis r))

/-- The successful per-row result built in the `calculate_uniqueness`
loop (risk_assessment.py lines 90-116): k-anonymity count and the fixed
threshold flags unique (k=1), rare (2≤k≤9), safe (k≥10). -/
def uniquenessSuccess (rows : List Row) (qis : List String) (idx : Nat) (r : Row) :
    UniquenessResult :=
  let k := kOf rows qis r
  { record_index := idx
    k_anonymity := k
    quasi_identifier_values := qis.map (fun c => (c, r c))
    is_unique := decide (k = 1)
    is_rare := decide (2 ≤ k ∧ k ≤ 9)
    is_safe := decide (10 ≤ k) }

/-- One iteration of the `calculate_uniqueness` loop.  pandas
`groupby` drops rows whose group key contains a missing value
(`dropna=True`), so the subsequent `qi_counts[...]` lookup for a row
with a null QI value raises `KeyError`. -/
def uniquenessOfRow (rows : List Row) (qis : List String) (idx : Nat) (r : Row) :
    Except String UniquenessResult :=
  if (qis.map r).any (fun v => decide (v = Value.null)) then
    Except.error "KeyError: quasi-identifier value is null"
  else
    Except.ok (uniquenessSuccess rows qis idx r)

/-- Embedding of `RiskAssessmentEngine.calculate_uniqueness`
(risk_assessment.py lines 65-118): validates that every
quasi-identifier column exists, then computes per-record group sizes.
`df.groupby([])` raises `ValueError` in pandas, before the row loop. -/
def calculate_uniqueness (df : DataFrame) (qis : List String) :
    Except String (List UniquenessResult) :=
  if ¬ (qis.all (fun c => decide (c ∈ df.cols))) then
    Except.error "Quasi-identifiers not found in DataFrame"
  else if qis.isEmpty then
    Except.error "ValueError: No group keys passed"
  else
    mapExcept (fun p => uniquenessOfRow df.rows qis p.1 p.2) (enumFrom 0 df.rows)

/-- Python's `min(l)` with a default for the empty list, as in
`min(k_values) if k_values else 1`. -/
def pyMin (l : List Nat) (dflt : Nat) : Nat :=
  match l with
  | [] => dflt
  | a :: as => as.foldl Nat.min a

/-- Embedding of `RiskAssessmentEngine._determine_risk_level`
(risk_assessment.py lines 179-237): the priority-ordered decision
policy giving (risk_level, risk_score, reasoning). -/
def determine_risk_level (unique_count : Nat) (total_qi_sets : Nat) (min_k : Nat) :
    String × ℚ × String :=
  if 2 ≤ unique_count then
    let risk_score : ℚ :=
      9/10 + ((unique_count : ℚ) / ((max total_qi_sets 1 : ℕ) : ℚ)) * (1/10)
    ("high", min risk_score 1,
      "Unique on " ++ toString unique_count ++ " different quasi-identifier combinations")
  else if min_k = 1 then
    ("high", 95/100, "Uniquely identifiable (k=1) - high re-identification risk")
  else if min_k = 2 then
    ("high", 90/100, "Extremely rare (k=2) - very high re-identification risk")
  else if 3 ≤ min_k ∧ min_k ≤ 9 then
    let risk_score : ℚ := 4/10 + ((10 : ℚ) - (min_k : ℚ)) / 20
    ("medium", min risk_score (80/100),
      "Insufficient anonymity (k=" ++ toString min_k ++ ") - below k>=10 standard")
  else
    let risk_score : ℚ := 1/10 + ((10 : ℚ) / (min_k : ℚ)) * (25/100)
    ("low", min risk_score (40/100),
      if 20 ≤ min_k then
        "Strong anonymity (k=" ++ toString min_k ++ ") - well-protected"
      else if 15 ≤ min_k then
        "Good anonymity (k=" ++ toString min_k ++ ") - adequately protected"
      else
        "Adequate anonymity (k=" ++ toString min_k ++ ") - meets k>=10 standard")

/-- Locate the uniqueness result for a record index
(risk_assessment.py lines 149-155): `next(...)` over matching
`record_index`, falling back to positional access, else an error. -/
def lookupResult (results : List UniquenessResult) (idx : Nat) :
    Except String UniquenessResult :=
  match results.find? (fun u => decide (u.record_index = idx)) with
  | some u => Except.ok u
  | none =>
    match results.get? idx with
    | some u => Except.ok u
    | none => Except.error "Could not find uniqueness result for record index"

/-- The per-QI-set lookup inside the `calculate_risk_scores` loop
(risk_assessment.py lines 146-156): recompute uniqueness for the whole
frame, then locate this record's result. -/
def uniquenessFor (df : DataFrame) (qs : List String) (idx : Nat) :
    Except String UniquenessResult :=
  match calculate_uniqueness df qs with
  | Except.error e => Except.error e
  | Except.ok results => lookupResult results idx

/-- The body of the outer `calculate_risk_scores` loop
(risk_assessment.py lines 142-175) for one record index: collect the
per-QI-set uniqueness results and apply the decision policy. -/
def riskScoreOfRecord (df : DataFrame) (qi_sets : List (List String)) (idx : Nat) :
    Except String RiskScore :=
  match mapExcept (fun qs => uniquenessFor df qs idx) qi_sets with
  | Except.error e => Except.error e
  | Except.ok us =>
    let unique_count := (us.filter (fun u => u.is_unique)).length
    let k_values := us.map (fun u => u.k_anonymity)
    let t := determine_risk_level unique_count qi_sets.length (pyMin k_values 1)
    Except.ok
      { record_index := idx
        risk_level := t.1
        risk_score := t.2.1
        unique_on_qi_count := unique_count
        k_anonymity := pyMin k_values 1
        reasoning := t.2.2 }

/-- Embedding of `RiskAssessmentEngine.calculate_risk_scores`
(risk_assessment.py lines 120-177). -/
def calculate_risk_scores (df : DataFrame) (qi_sets : List (List String)) :
    Except String (List RiskScore) :=
  mapExcept (riskScoreOfRecord df qi_sets) (List.range df.rows.length)

/-- Round-half-to-even on rationals, the embedding of Python `round`
to an integer. -/
def roundHalfEven (q : ℚ) : ℤ :=
  let fl := ⌊q⌋
  let frac := q - fl
  if frac < 1/2 then fl
  else if 1/2 < frac then fl + 1
  else if fl % 2 = 0 then fl else fl + 1

/-- Python `round(x, 2)`. -/
def round2 (q : ℚ) : ℚ :=
  (roundHalfEven (q * 100) : ℚ) / 100

/-- Embedding of `RiskAssessmentEngine.generate_risk_report`
(risk_assessment.py lines 239-290).  The `df` argument is accepted, as
in the source, but nothing in the body reads it. -/
def generate_risk_report (df : DataFrame) (risk_scores : List RiskScore) : RiskReport :=
  let total := risk_scores.length
  let high_count := (risk_scores.filter (fun rs => decide (rs.risk_level = "high"))).length
  let medium_count := (risk_scores.filter (fun rs => decide (rs.risk_level = "medium"))).length
  let low_count := (risk_scores.filter (fun rs => decide (rs.risk_level = "low"))).length
  let high_pct : ℚ := if 0 < total then (high_count : ℚ) / (total : ℚ) * 100 else 0
  let medium_pct : ℚ := if 0 < total then (medium_count : ℚ) / (total : ℚ) * 100 else 0
  let low_pct : ℚ := if 0 < total then (low_count : ℚ) / (total : ℚ) * 100 else 0
  let k_values := risk_scores.map (fun rs => rs.k_anonymity)
  let avg_k : ℚ :=
    if k_values.isEmpty then 0 else ((k_values.sum : ℕ) : ℚ) / ((k_values.length : ℕ) : ℚ)
  let min_k := match k_values with | [] => 0 | a :: as => as.foldl Nat.min a
  { total_records := total
    high_risk_count := high_count
    medium_risk_count := medium_count
    low_risk_count := low_count
    high_risk_percentage := round2 high_pct
    medium_risk_percentage := round2 medium_pct
    low_risk_percentage := round2 low_pct
    average_k_anonymity := round2 avg_k
    min_k_anonymity := min_k
    unique_records :=
      (risk_scores.filter (fun rs => decide (rs.k_anonymity = 1))).map
        (fun rs => rs.record_index)
    rare_records :=
      (risk_scores.filter (fun rs => decide (2 ≤ rs.k_anonymity ∧ rs.k_anonymity ≤ 5))).map
        (fun rs => rs.record_index)
    safe_records :=
      (risk_scores.filter (fun rs => decide (10 < rs.k_anonymity))).map
        (fun rs => rs.record_index) }

/-- Python list slice `l[:limit]` for a possibly negative `limit`. -/
def pySlice (l : List α) (limit : Int) : List α :=
  if 0 ≤ limit then l.take limit.toNat
  else l.take (l.length - (-limit).toNat)

/-- One output row of the high-risk selector: the original record
joined with its score and reasoning columns. -/
structure HighRiskRow where
  row : Row
  risk_score : ℚ
  risk_reasoning : String

/-- Embedding of `RiskAssessmentEngine.get_high_risk_records`
(risk_assessment.py lines 315-346): filter to high risk, stable sort
descending by score, slice to `limit`, and join each selected score
back onto its original record (`df.loc` raises `KeyError` when a
record index is absent). -/
def get_high_risk_records (df : DataFrame) (risk_scores : List RiskScore)
    (limit : Int) : Except String (List HighRiskRow) :=
  let high_risk := risk_scores.filter (fun rs => decide (rs.risk_level = "high"))
  let sorted := high_risk.mergeSort (fun a b => decide (b.risk_score ≤ a.risk_score))
  let selected := pySlice sorted limit
  mapExcept (fun rs =>
    match df.rows.get? rs.record_index with
    | some r =>
      Except.ok { row := r, risk_score := rs.risk_score, risk_reasoning := rs.reasoning }
    | none => Except.error "KeyError: record index not in DataFrame") selected

/-- The number of distinct QI-value groups formed by the groupby in
`calculate_uniqueness` (the length of the `qi_counts` series), for a
frame with no missing QI values. -/
def distinctGroupCount (rows : List Row) (qis : List String) : Nat :=
  ((rows.map (qiKey qis)).dedup).length

/-! ### Concrete fixtures used to evaluate the definitions -/

/-- A record over columns age and zip. -/
def sampleRow (a : Int) (z : String) : Row :=
  fun c => if c = "age" then Value.int a else if c = "zip" then Value.str z else Value.null

/-- Three records: two sharing (age, zip) and one distinct. -/
def sampleDf : DataFrame :=
  ⟨["age", "zip"], [sampleRow 25 "A", sampleRow 25 "A", sampleRow 30 "B"]⟩

/-- The risk scores of `sampleDf` under the QI-set list `[[age, zip]]`. -/
def sampleScore0 : RiskScore :=
  { record_index := 0, risk_level := "high", risk_score := 90/100,
    unique_on_qi_count := 0, k_anonymity := 2,
    reasoning := "Extremely rare (k=2) - very high re-identification risk" }

def sampleScore1 : RiskScore :=
  { record_index := 1, risk_level := "high", risk_score := 90/100,
    unique_on_qi_count := 0, k_anonymity := 2,
    reasoning := "Extremely rare (k=2) - very high re-identification risk" }

def sampleScore2 : RiskScore :=
  { record_index := 2, risk_level := "high", risk_score := 95/100,
    unique_on_qi_count := 1, k_anonymity := 1,
    reasoning := "Uniquely identifiable (k=1) - high re-identification risk" }

def sampleScores : List RiskScore := [sampleScore0, sampleScore1, sampleScore2]

/-- A record whose every value is missing. -/
def nullRow : Row := fun _ => Value.null

/-- A frame whose QI column holds only missing values. -/
def nullDf : DataFrame := ⟨["age"], [nullRow, nullRow]⟩

/-- A one-record frame for the high-risk selector. -/
def oneRowDf : DataFrame := ⟨["age", "zip"], [sampleRow 25 "A"]⟩

/-- A single high-risk score on record 0. -/
def highScore0 : RiskScore :=
  { record_index := 0, risk_level := "high", risk_score := 95/100,
    unique_on_qi_count := 1, k_anonymity := 1,
    reasoning := "Uniquely identifiable (k=1) - high re-identification risk" }

/-- Two records agreeing on age but split by zip. -/
def monoDf : DataFrame := ⟨["age", "zip"], [sampleRow 25 "A", sampleRow 25 "B"]⟩

/-- Uniqueness results of `monoDf` under QI-set `[age]`. -/
def uA0 : UniquenessResult :=
  { record_index := 0, k_anonymity := 2,
    quasi_identifier_values := [("age", Value.int 25)],
    is_unique := false, is_rare := true, is_safe := false }

def uA1 : UniquenessResult :=
  { record_index := 1, k_anonymity := 2,
    quasi_identifier_values := [("age", Value.int 25)],
    is_unique := false, is_rare := true, is_safe := false }

/-- Uniqueness results of `monoDf` under QI-set `[age, zip]`. -/
def uB0 : UniquenessResult :=
  { record_index := 0, k_anonymity := 1,
    quasi_identifier_values := [("age", Value.int 25), ("zip", Value.str "A")],
    is_unique := true, is_rare := false, is_safe := false }

def uB1 : UniquenessResult :=
  { record_index := 1, k_anonymity := 1,
    quasi_identifier_values := [("age", Value.int 25), ("zip", Value.str "B")],
    is_unique := true, is_rare := false, is_safe := false }

def resA0 : List UniquenessResult := [uA0, uA1]

def resB0 : List UniquenessResult := [uB0, uB1]

/-! ### Helper lemmas about the loop combinators -/

theorem mapExcept_ok_length {α β : Type} {f : α → Except String β} {l : List α}
    {res : List β} (h : mapExcept f l = Except.ok res) : res.length = l.length := by
  induction l generalizing res with
  | nil =>
    simp only [mapExcept] at h
    cases h
    rfl
  | cons a as ih =>
    cases hfa : f a with
    | error e => simp [mapExcept, hfa] at h
    | ok b =>
      cases hrec : mapExcept f as with
      | error e => simp [mapExcept, hfa, hrec] at h
      | ok bs =>
        simp only [mapExcept, hfa, hrec] at h
        cases h
        simp [ih hrec]

theorem mapExcept_ok_mem {α β : Type} {f : α → Except String β} {l : List α}
    {res : List β} (h : mapExcept f l = Except.ok res) {b : β} (hb : b ∈ res) :
    ∃ a ∈ l, f a = Except.ok b := by
  induction l generalizing res with
  | nil =>
    simp only [mapExcept] at h
    cases h
    cases hb
  | cons a as ih =>
    cases hfa : f a with
    | error e => simp [mapExcept, hfa] at h
    | ok b0 =>
      cases hrec : mapExcept f as with
      | error e => simp [mapExcept, hfa, hrec] at h
      | ok bs =>
        simp only [mapExcept, hfa, hrec] at h
        cases h
        rcases List.mem_cons.mp hb with hb0 | hbs
        · exact ⟨a, List.mem_cons_self _ _, hb0 ▸ hfa⟩
        · rcases ih hrec hbs with ⟨a2, ha2, hfa2⟩
          exact ⟨a2, List.mem_cons_of_mem _ ha2, hfa2⟩

theorem mapExcept_ok_no_fail {α β : Type} {f : α → Except String β} {l : List α}
    {res : List β} (h : mapExcept f l = Except.ok res) {a : α} (ha : a ∈ l) :
    ∃ b, f a = Except.ok b := by
  induction l generalizing res with
  | nil => cases ha
  | cons a0 as ih =>
    cases hfa : f a0 with
    | error e => simp [mapExcept, hfa] at h
    | ok b0 =>
      cases hrec : mapExcept f as with
      | error e => simp [mapExcept, hfa, hrec] at h
      | ok bs =>
        rcases List.mem_cons.mp ha with rfl | has
        · exact ⟨b0, hfa⟩
        · exact ih hrec has

theorem mapExcept_congr {α β : Type} {f : α → Except String β} {g : α → β}
    {l : List α} (h : ∀ a ∈ l, f a = Except.ok (g a)) :
    mapExcept f l = Except.ok (l.map g) := by
  induction l with
  | nil => rfl
  | cons a as ih =>
    have hfa := h a (List.mem_cons_self _ _)
    have hrec := ih (fun a2 ha2 => h a2 (List.mem_cons_of_mem _ ha2))
    simp [mapExcept, hfa, hrec]

theorem mapExcept_ok_of_forall {α β : Type} {f : α → Except String β} {l : List α}
    (h : ∀ a ∈ l, ∃ b, f a = Except.ok b) :
    ∃ res, mapExcept f l = Except.ok res := by
  induction l with
  | nil => exact ⟨[], rfl⟩
  | cons a as ih =>
    rcases h a (List.mem_cons_self _ _) with ⟨b, hfa⟩
    rcases ih (fun a2 ha2 => h a2 (List.mem_cons_of_mem _ ha2)) with ⟨bs, hrec⟩
    exact ⟨b :: bs, by simp [mapExcept, hfa, hrec]⟩

theorem mapExcept_error_of_mem {α β : Type} {f : α → Except String β} {l : List α}
    {a : α} (ha : a ∈ l) (hfail : ∀ b, f a ≠ Except.ok b) :
    ∃ e, mapExcept f l = Except.error e := by
  cases hres : mapExcept f l with
  | error e => exact ⟨e, rfl⟩
  | ok res =>
    rcases mapExcept_ok_no_fail hres ha with ⟨b, hb⟩
    exact absurd hb (hfail b)

theorem enumFrom_get? {α : Type} :
    ∀ (l : List α) (j i : Nat),
      (enumFrom j l).get? i = (l.get? i).map (fun a => (j + i, a))
  | [], _, _ => by simp [enumFrom]
  | a :: as, j, 0 => by simp [enumFrom]
  | a :: as, j, i + 1 => by
    simp only [enumFrom, List.get?]
    rw [enumFrom_get? as (j + 1) i]
    simp [Nat.add_assoc, Nat.add_comm 1 i]

theorem mem_enumFrom_snd {α : Type} {p : Nat × α} :
    ∀ {l : List α} {j : Nat}, p ∈ enumFrom j l → p.2 ∈ l := by
  intro l
  induction l with
  | nil => intro j h; cases h
  | cons a as ih =>
    intro j h
    rcases List.mem_cons.mp h with rfl | hmem
    · exact List.mem_cons_self _ _
    · exact List.mem_cons_of_mem _ (ih hmem)

theorem mem_enumFrom_of_mem {α : Type} {a : α} :
    ∀ {l : List α} (j : Nat), a ∈ l → ∃ i, (i, a) ∈ enumFrom j l := by
  intro l
  induction l with
  | nil => intro j h; cases h
  | cons a0 as ih =>
    intro j h
    rcases List.mem_cons.mp h with rfl | hmem
    · exact ⟨j, List.mem_cons_self _ _⟩
    · rcases ih (j + 1) hmem with ⟨i, hi⟩
      exact ⟨i, List.mem_cons_of_mem _ hi⟩

theorem enumFrom_map_snd {α β : Type} (g : α → β) :
    ∀ (l : List α) (j : Nat), (enumFrom j l).map (fun p => g p.2) = l.map g
  | [], _ => rfl
  | a :: as, j => by simp [enumFrom, enumFrom_map_snd g as (j + 1)]

theorem foldl_min_le_init {a : Nat} : ∀ {as : List Nat}, as.foldl Nat.min a ≤ a := by
  intro as
  induction as generalizing a with
  | nil => exact Nat.le_refl a
  | cons b bs ih =>
    calc (b :: bs).foldl Nat.min a = bs.foldl Nat.min (Nat.min a b) := rfl
    _ ≤ Nat.min a b := ih
    _ ≤ a := Nat.min_le_left _ _

theorem foldl_min_le_mem {x : Nat} :
    ∀ {as : List Nat} {a : Nat}, x ∈ as → as.foldl Nat.min a ≤ x := by
  intro as
  induction as with
  | nil => intro a h; cases h
  | cons b bs ih =>
    intro a h
    rcases List.mem_cons.mp h with rfl | hmem
    · calc (x :: bs).foldl Nat.min a = bs.foldl Nat.min (Nat.min a x) := rfl
      _ ≤ Nat.min a x := foldl_min_le_init
      _ ≤ x := Nat.min_le_right _ _
    · exact ih hmem

theorem le_foldl_min {c : Nat} :
    ∀ {as : List Nat} {a : Nat}, c ≤ a → (∀ x ∈ as, c ≤ x) →
      c ≤ as.foldl Nat.min a := by
  intro as
  induction as with
  | nil => intro a ha _; exact ha
  | cons b bs ih =>
    intro a ha hmem
    have hb : c ≤ b := hmem b (List.mem_cons_self _ _)
    exact ih (Nat.le_min.mpr ⟨ha, hb⟩) (fun x hx => hmem x (List.mem_cons_of_mem _ hx))

theorem pyMin_le_mem {l : List Nat} {d x : Nat} (h : x ∈ l) : pyMin l d ≤ x := by
  cases l with
  | nil => cases h
  | cons a as =>
    rcases List.mem_cons.mp h with rfl | hmem
    · exact foldl_min_le_init
    · exact foldl_min_le_mem hmem

theorem le_pyMin {l : List Nat} {d c : Nat} (hd : c ≤ d) (h : ∀ x ∈ l, c ≤ x) :
    c ≤ pyMin l d := by
  cases l with
  | nil => exact hd
  | cons a as =>
    exact le_foldl_min (h a (List.mem_cons_self _ _))
      (fun x hx => h x (List.mem_cons_of_mem _ hx))

/-! ### Structural lemmas about the Group Counter -/

theorem kOf_pos {rows : List Row} {qis : List String} {r : Row} (hr : r ∈ rows) :
    1 ≤ kOf rows qis r := by
  have : 0 < rows.countP (fun r2 => decide (qiKey qis r2 = qiKey qis r)) :=
    List.countP_pos.mpr ⟨r, hr, by simp⟩
  exact this

theorem kOf_append_le (rows : List Row) (A ext : List String) (r : Row) :
    kOf rows (A ++ ext) r ≤ kOf rows A r := by
  apply List.countP_mono_left
  intro r2 _ h
  have h2 : qiKey (A ++ ext) r2 = qiKey (A ++ ext) r := of_decide_eq_true h
  have happ : qiKey A r2 ++ qiKey ext r2 = qiKey A r ++ qiKey ext r := by
    simpa [qiKey, List.map_append] using h2
  have hlen : (qiKey A r2).length = (qiKey A r).length := by simp [qiKey]
  exact decide_eq_true (List.append_inj happ hlen).1

theorem calc_uniqueness_ok_eq {df : DataFrame} {qis : List String}
    {res : List UniquenessResult} (h : calculate_uniqueness df qis = Except.ok res) :
    res = (enumFrom 0 df.rows).map
      (fun p => uniquenessSuccess df.rows qis p.1 p.2) := by
  unfold calculate_uniqueness at h
  by_cases hc : ¬ (qis.all (fun c => decide (c ∈ df.cols)))
  · rw [if_pos hc] at h; cases h
  · rw [if_neg hc] at h
    by_cases he : qis.isEmpty
    · rw [if_pos he] at h; cases h
    · rw [if_neg he] at h
      have hok : ∀ p ∈ enumFrom 0 df.rows,
          uniquenessOfRow df.rows qis p.1 p.2
            = Except.ok (uniquenessSuccess df.rows qis p.1 p.2) := by
        intro p hp
        rcases mapExcept_ok_no_fail h hp with ⟨b, hb⟩
        unfold uniquenessOfRow at hb ⊢
        by_cases hnull : (qis.map p.2).any (fun v => decide (v = Value.null))
        · rw [if_pos hnull] at hb; cases hb
        · rw [if_neg hnull]
      rw [mapExcept_congr hok] at h
      cases h
      rfl

theorem calc_uniqueness_ok_mem {df : DataFrame} {qis : List String}
    {res : List UniquenessResult} (h : calculate_uniqueness df qis = Except.ok res)
    {u : UniquenessResult} (hu : u ∈ res) :
    ∃ r ∈ df.rows, u.k_anonymity = kOf df.rows qis r ∧
      u.is_unique = decide (u.k_anonymity = 1) := by
  rw [calc_uniqueness_ok_eq h] at hu
  rcases List.mem_map.mp hu with ⟨p, hp, hpu⟩
  refine ⟨p.2, mem_enumFrom_snd hp, ?_, ?_⟩
  · rw [← hpu]; rfl
  · rw [← hpu]; rfl

theorem calc_uniqueness_ok_get? {df : DataFrame} {qis : List String}
    {res : List UniquenessResult} (h : calculate_uniqueness df qis = Except.ok res)
    {i : Nat} {u : UniquenessResult} (hget : res.get? i = some u) :
    ∃ r, df.rows.get? i = some r ∧ u = uniquenessSuccess df.rows qis i r := by
  rw [calc_uniqueness_ok_eq h] at hget
  rw [List.get?_map, enumFrom_get?] at hget
  cases hr : df.rows.get? i with
  | none => rw [hr] at hget; cases hget
  | some r =>
    rw [hr] at hget
    simp only [Option.map] at hget
    cases hget
    exact ⟨r, rfl, by simp [Nat.zero_add]⟩

/-- Tally lemma: summing `1/|bucket of a|` over a list equals the
number of distinct buckets. -/
theorem sum_inv_countP {α β : Type} [DecidableEq β] (l : List α) (f : α → β) :
    (l.map (fun a =>
      (1 : ℚ) / ((l.countP (fun a2 => decide (f a2 = f a)) : ℕ) : ℚ))).sum
      = (((l.map f).dedup.length : ℕ) : ℚ) := by
  have hcnt : ∀ b : β, (l.map f).count b
      = l.countP (fun a2 => decide (f a2 = b)) := by
    intro b
    rw [List.count, List.countP_map]
    rfl
  have h1 : (l.map (fun a =>
        (1 : ℚ) / ((l.countP (fun a2 => decide (f a2 = f a)) : ℕ) : ℚ)))
      = (l.map f).map (fun b => (1 : ℚ) / (((l.map f).count b : ℕ) : ℚ)) := by
    rw [List.map_map]
    apply List.map_congr_left
    intro a _
    simp [Function.comp, hcnt]
  rw [h1, Finset.sum_list_map_count]
  have h2 : ∀ b ∈ (l.map f).toFinset,
      (l.map f).count b • ((1 : ℚ) / (((l.map f).count b : ℕ) : ℚ)) = 1 := by
    intro b hb
    have hpos : 0 < (l.map f).count b :=
      List.count_pos_iff_mem.mpr (List.mem_toFinset.mp hb)
    have hne : (((l.map f).count b : ℕ) : ℚ) ≠ 0 := by
      exact_mod_cast Nat.pos_iff_ne_zero.mp hpos
    rw [nsmul_eq_mul, mul_one_div, div_self hne]
  rw [Finset.sum_congr rfl h2, Finset.sum_const, nsmul_eq_mul, mul_one,
    List.card_toFinset]

/-! ### Structural lemmas about the Multi-Set Risk Scorer -/

theorem lookupResult_mem {results : List UniquenessResult} {idx : Nat}
    {u : UniquenessResult} (h : lookupResult results idx = Except.ok u) :
    u ∈ results := by
  unfold lookupResult at h
  cases hfind : results.find? (fun v => decide (v.record_index = idx)) with
  | some v =>
    rw [hfind] at h
    cases h
    exact List.mem_of_find?_eq_some hfind
  | none =>
    rw [hfind] at h
    cases hget : results.get? idx with
    | none => rw [hget] at h; cases h
    | some v =>
      rw [hget] at h
      cases h
      exact List.get?_mem hget

theorem uniquenessFor_ok_mem {df : DataFrame} {qs : List String} {idx : Nat}
    {u : UniquenessResult} (h : uniquenessFor df qs idx = Except.ok u) :
    ∃ results, calculate_uniqueness df qs = Except.ok results ∧ u ∈ results := by
  unfold uniquenessFor at h
  cases hc : calculate_uniqueness df qs with
  | error e => rw [hc] at h; cases h
  | ok results =>
    rw [hc] at h
    exact ⟨results, rfl, lookupResult_mem h⟩

theorem risk_scores_ok_mem {df : DataFrame} {qi_sets : List (List String)}
    {scores : List RiskScore} (h : calculate_risk_scores df qi_sets = Except.ok scores)
    {s : RiskScore} (hs : s ∈ scores) :
    ∃ us : List UniquenessResult,
      us.length = qi_sets.length ∧
      (∀ u ∈ us, 1 ≤ u.k_anonymity ∧ u.is_unique = decide (u.k_anonymity = 1)) ∧
      s.unique_on_qi_count = (us.filter (fun u => u.is_unique)).length ∧
      s.k_anonymity = pyMin (us.map (fun u => u.k_anonymity)) 1 ∧
      (s.risk_level, s.risk_score, s.reasoning)
        = determine_risk_level s.unique_on_qi_count qi_sets.length s.k_anonymity := by
  rcases mapExcept_ok_mem h hs with ⟨idx, _, hf⟩
  unfold riskScoreOfRecord at hf
  cases hus : mapExcept (fun qs => uniquenessFor df qs idx) qi_sets with
  | error e => rw [hus] at hf; cases hf
  | ok us =>
    rw [hus] at hf
    cases hf
    refine ⟨us, mapExcept_ok_length hus, ?_, rfl, rfl, rfl⟩
    intro u hu
    rcases mapExcept_ok_mem hus hu with ⟨qs, _, hqs⟩
    rcases uniquenessFor_ok_mem hqs with ⟨results, hres, humem⟩
    rcases calc_uniqueness_ok_mem hres humem with ⟨r, hr, hk, huniq⟩
    exact ⟨hk ▸ kOf_pos hr, huniq⟩

theorem risk_scores_min_k_pos {df : DataFrame} {qi_sets : List (List String)}
    {scores : List RiskScore} (h : calculate_risk_scores df qi_sets = Except.ok scores)
    {s : RiskScore} (hs : s ∈ scores) : 1 ≤ s.k_anonymity := by
  rcases risk_scores_ok_mem h hs with ⟨us, _, hall, _, hmin, _⟩
  rw [hmin]
  apply le_pyMin (Nat.le_refl 1)
  intro x hx
  rcases List.mem_map.mp hx with ⟨u, hu, hux⟩
  exact hux ▸ (hall u hu).1

/-! ### Lemmas about the decision policy -/

theorem determine_rule1 {u : Nat} (t k : Nat) (h : 2 ≤ u) :
    determine_risk_level u t k =
      ("high",
        min (9/10 + ((u : ℚ) / ((max t 1 : ℕ) : ℚ)) * (1/10)) 1,
        "Unique on " ++ toString u ++ " different quasi-identifier combinations") := by
  unfold determine_risk_level
  rw [if_pos h]

theorem determine_rule2 {u : Nat} (t : Nat) {k : Nat} (h : ¬ 2 ≤ u) (hk : k = 1) :
    determine_risk_level u t k =
      ("high", 95/100, "Uniquely identifiable (k=1) - high re-identification risk") := by
  unfold determine_risk_level
  rw [if_neg h, if_pos hk]

theorem determine_rule3 {u : Nat} (t : Nat) {k : Nat} (h : ¬ 2 ≤ u) (hk : k = 2) :
    determine_risk_level u t k =
      ("high", 90/100, "Extremely rare (k=2) - very high re-identification risk") := by
  unfold determine_risk_level
  rw [if_neg h, if_neg (by omega : ¬ k = 1), if_pos hk]

theorem determine_rule4 {u : Nat} (t : Nat) {k : Nat} (h : ¬ 2 ≤ u)
    (hk3 : 3 ≤ k) (hk9 : k ≤ 9) :
    determine_risk_level u t k =
      ("medium", min (4/10 + ((10 : ℚ) - (k : ℚ)) / 20) (80/100),
        "Insufficient anonymity (k=" ++ toString k ++ ") - below k>=10 standard") := by
  unfold determine_risk_level
  rw [if_neg h, if_neg (by omega : ¬ k = 1), if_neg (by omega : ¬ k = 2),
    if_pos ⟨hk3, hk9⟩]

theorem determine_rule5 {u : Nat} (t : Nat) {k : Nat} (h : ¬ 2 ≤ u) (hk : 10 ≤ k) :
    determine_risk_level u t k =
      ("low", min (1/10 + ((10 : ℚ) / (k : ℚ)) * (25/100)) (40/100),
        if 20 ≤ k then "Strong anonymity (k=" ++ toString k ++ ") - well-protected"
        else if 15 ≤ k then "Good anonymity (k=" ++ toString k ++ ") - adequately protected"
        else "Adequate anonymity (k=" ++ toString k ++ ") - meets k>=10 standard") := by
  unfold determine_risk_level
  rw [if_neg h, if_neg (by omega : ¬ k = 1), if_neg (by omega : ¬ k = 2),
    if_neg (by omega : ¬ (3 ≤ k ∧ k ≤ 9))]

theorem determine_score_cases (u t k : Nat) :
    ((determine_risk_level u t k).1 = "high"
        ∧ 9/10 ≤ (determine_risk_level u t k).2.1) ∨
    ((determine_risk_level u t k).1 = "medium"
        ∧ (determine_risk_level u t k).2.1 ≤ 8/10) ∨
    ((determine_risk_level u t k).1 = "low"
        ∧ (determine_risk_level u t k).2.1 ≤ 4/10) := by
  unfold determine_risk_level
  split_ifs with h1 h2 h3 h4 h5 h6
  · left
    refine ⟨rfl, le_min ?_ (by norm_num)⟩
    have hx : 0 ≤ ((u : ℚ) / ((max t 1 : ℕ) : ℚ)) * (1/10) := by positivity
    linarith
  · left; exact ⟨rfl, by norm_num⟩
  · left; exact ⟨rfl, by norm_num⟩
  · right; left
    exact ⟨rfl, le_trans (min_le_right _ _) (by norm_num)⟩
  · right; right
    exact ⟨rfl, le_trans (min_le_right _ _) (by norm_num)⟩
  · right; right
    exact ⟨rfl, le_trans (min_le_right _ _) (by norm_num)⟩
  · right; right
    exact ⟨rfl, le_trans (min_le_right _ _) (by norm_num)⟩

theorem pySlice_subset (l : List α) (limit : Int) : pySlice l limit ⊆ l := by
  unfold pySlice
  split_ifs
  · exact List.take_subset _ _
  · exact List.take_subset _ _

/-! ### Claim theorems -/

/-- C1 counterexample: on a one-record frame, the Multi-Set Risk Scorer
called with an empty QI-set list returns a result rather than failing
with a validation error. -/
theorem risk_scores_empty_qi_sets_counterexample :
    calculate_risk_scores (DataFrame.mk ["age"] [sampleRow 25 "A"]) []
      = Except.ok [RiskScore.mk 0 "high" (95/100) 0 1
          "Uniquely identifiable (k=1) - high re-identification risk"] :=
  rfl

/-- C1 (amended): for every dataset, `calculate_risk_scores` with an
empty QI-set list does not fail; the minimum k silently defaults to 1
and every record is scored high with risk score 0.95. -/
theorem risk_scores_empty_qi_sets_default (df : DataFrame) :
    calculate_risk_scores df []
      = Except.ok ((List.range df.rows.length).map (fun idx =>
          RiskScore.mk idx "high" (95/100) 0 1
            "Uniquely identifiable (k=1) - high re-identification risk")) := by
  apply mapExcept_congr
  intro idx _
  rfl

/-- C10: the risk report is fully determined by the risk-score list:
the DataFrame argument influences no field, and `total_records` is the
length of the score list. -/
theorem report_independent_of_df (df1 df2 : DataFrame) (scores : List RiskScore) :
    generate_risk_report df1 scores = generate_risk_report df2 scores ∧
    (generate_risk_report df1 scores).total_records = scores.length :=
  ⟨rfl, rfl⟩

/-- C8: the three classification index lists of the risk report are
derived from each record's stored `k_anonymity` with boundaries
k = 1 (unique), 2 ≤ k ≤ 5 (rare) and k > 10 (safe). -/
theorem report_classification_lists (df : DataFrame) (scores : List RiskScore) (i : Nat) :
    (i ∈ (generate_risk_report df scores).unique_records ↔
      ∃ s ∈ scores, s.record_index = i ∧ s.k_anonymity = 1) ∧
    (i ∈ (generate_risk_report df scores).rare_records ↔
      ∃ s ∈ scores, s.record_index = i ∧ (2 ≤ s.k_anonymity ∧ s.k_anonymity ≤ 5)) ∧
    (i ∈ (generate_risk_report df scores).safe_records ↔
      ∃ s ∈ scores, s.record_index = i ∧ 10 < s.k_anonymity) := by
  refine ⟨?_, ?_, ?_⟩ <;>
  · simp only [generate_risk_report, List.mem_map, List.mem_filter, decide_eq_true_eq]
    constructor
    · rintro ⟨s, ⟨hs, hp⟩, hidx⟩
      exact ⟨s, hs, hidx, hp⟩
    · rintro ⟨s, hs, hidx, hp⟩
      exact ⟨s, ⟨hs, hp⟩, hidx⟩

/-- C3: for every successful scoring run with a non-empty QI-set list,
high scores are at least 0.90, medium scores at most 0.80 and low
scores at most 0.40, so the three ranges never overlap. -/
theorem risk_score_range_separation (df : DataFrame) (qi_sets : List (List String))
    (scores : List RiskScore) (h : calculate_risk_scores df qi_sets = Except.ok scores)
    (hne : qi_sets ≠ []) (s : RiskScore) (hs : s ∈ scores) :
    (s.risk_level = "high" → 9/10 ≤ s.risk_score) ∧
    (s.risk_level = "medium" → s.risk_score ≤ 8/10) ∧
    (s.risk_level = "low" → s.risk_score ≤ 4/10) := by
  rcases risk_scores_ok_mem h hs with ⟨us, _, _, _, _, htup⟩
  have hlev : s.risk_level
      = (determine_risk_level s.unique_on_qi_count qi_sets.length s.k_anonymity).1 :=
    congrArg Prod.fst htup
  have hscore : s.risk_score
      = (determine_risk_level s.unique_on_qi_count qi_sets.length s.k_anonymity).2.1 :=
    congrArg (fun p => p.2.1) htup
  rw [hlev, hscore]
  rcases determine_score_cases s.unique_on_qi_count qi_sets.length s.k_anonymity with
    hc | hc | hc
  · exact ⟨fun _ => hc.2,
      fun hm => absurd (hc.1.symm.trans hm) (by decide),
      fun hl => absurd (hc.1.symm.trans hl) (by decide)⟩
  · exact ⟨fun hh => absurd (hc.1.symm.trans hh) (by decide),
      fun _ => hc.2,
      fun hl => absurd (hc.1.symm.trans hl) (by decide)⟩
  · exact ⟨fun hh => absurd (hc.1.symm.trans hh) (by decide),
      fun hm => absurd (hc.1.symm.trans hm) (by decide),
      fun _ => hc.2⟩

/-- C3 witness: a concrete high-risk record of `sampleDf` has score at
least 0.90. -/
theorem risk_score_range_separation_witness :
    (9 : ℚ)/10 ≤ sampleScore0.risk_score :=
  (risk_score_range_separation sampleDf [["age", "zip"]] sampleScores rfl
    (by decide) sampleScore0 (List.mem_cons_self _ _)).1 rfl

/-- C2: for every record scored with a non-empty list of QI-sets, the
risk level, score and reasoning are fixed by the five priority rules,
first match wins: (1) unique count ≥ 2, (2) min k = 1, (3) min k = 2,
(4) 3 ≤ min k ≤ 9, (5) min k ≥ 10, with the stated score formulas. -/
theorem risk_policy_five_rules (df : DataFrame) (qi_sets : List (List String))
    (scores : List RiskScore) (h : calculate_risk_scores df qi_sets = Except.ok scores)
    (hne : qi_sets ≠ []) (s : RiskScore) (hs : s ∈ scores) :
    (2 ≤ s.unique_on_qi_count →
      s.risk_level = "high" ∧
      s.risk_score = min (9/10 + ((s.unique_on_qi_count : ℚ)
          / ((max qi_sets.length 1 : ℕ) : ℚ)) * (1/10)) 1 ∧
      s.reasoning = "Unique on " ++ toString s.unique_on_qi_count
          ++ " different quasi-identifier combinations") ∧
    (s.unique_on_qi_count < 2 → s.k_anonymity = 1 →
      s.risk_level = "high" ∧ s.risk_score = 95/100 ∧
      s.reasoning = "Uniquely identifiable (k=1) - high re-identification risk") ∧
    (s.unique_on_qi_count < 2 → s.k_anonymity = 2 →
      s.risk_level = "high" ∧ s.risk_score = 90/100 ∧
      s.reasoning = "Extremely rare (k=2) - very high re-identification risk") ∧
    (s.unique_on_qi_count < 2 → 3 ≤ s.k_anonymity → s.k_anonymity ≤ 9 →
      s.risk_level = "medium" ∧
      s.risk_score = min (4/10 + ((10 : ℚ) - (s.k_anonymity : ℚ)) / 20) (80/100) ∧
      s.reasoning = "Insufficient anonymity (k=" ++ toString s.k_anonymity
          ++ ") - below k>=10 standard") ∧
    (s.unique_on_qi_count < 2 → 10 ≤ s.k_anonymity →
      s.risk_level = "low" ∧
      s.risk_score = min (1/10 + ((10 : ℚ) / (s.k_anonymity : ℚ)) * (25/100)) (40/100) ∧
      s.reasoning = (if 20 ≤ s.k_anonymity then
          "Strong anonymity (k=" ++ toString s.k_anonymity ++ ") - well-protected"
        else if 15 ≤ s.k_anonymity then
          "Good anonymity (k=" ++ toString s.k_anonymity ++ ") - adequately protected"
        else
          "Adequate anonymity (k=" ++ toString s.k_anonymity
            ++ ") - meets k>=10 standard")) := by
  refine ⟨?_, ?_, ?_, ?_, ?_⟩
  · intro hu
    rcases risk_scores_ok_mem h hs with ⟨us, _, _, _, _, htup⟩
    rw [determine_rule1 qi_sets.length s.k_anonymity hu] at htup
    simp only [Prod.mk.injEq] at htup
    exact ⟨htup.1, htup.2.1, htup.2.2⟩
  · intro hu hk
    rcases risk_scores_ok_mem h hs with ⟨us, _, _, _, _, htup⟩
    rw [determine_rule2 qi_sets.length (by omega) hk] at htup
    simp only [Prod.mk.injEq] at htup
    exact ⟨htup.1, htup.2.1, htup.2.2⟩
  · intro hu hk
    rcases risk_scores_ok_mem h hs with ⟨us, _, _, _, _, htup⟩
    rw [determine_rule3 qi_sets.length (by omega) hk] at htup
    simp only [Prod.mk.injEq] at htup
    exact ⟨htup.1, htup.2.1, htup.2.2⟩
  · intro hu hk3 hk9
    rcases risk_scores_ok_mem h hs with ⟨us, _, _, _, _, htup⟩
    rw [determine_rule4 qi_sets.length (by omega) hk3 hk9] at htup
    simp only [Prod.mk.injEq] at htup
    exact ⟨htup.1, htup.2.1, htup.2.2⟩
  · intro hu hk10
    rcases risk_scores_ok_mem h hs with ⟨us, _, _, _, _, htup⟩
    rw [determine_rule5 qi_sets.length (by omega) hk10] at htup
    simp only [Prod.mk.injEq] at htup
    exact ⟨htup.1, htup.2.1, htup.2.2⟩

/-- C2 witness: record 0 of `sampleDf` falls under rule 3 (min k = 2)
and gets level high with score 0.90. -/
theorem risk_policy_five_rules_witness :
    sampleScore0.risk_level = "high" ∧ sampleScore0.risk_score = 90/100 :=
  have h := risk_policy_five_rules sampleDf [["age", "zip"]] sampleScores rfl
    (by decide) sampleScore0 (List.mem_cons_self _ _)
  ⟨(h.2.2.1 (by decide) (by decide)).1, (h.2.2.1 (by decide) (by decide)).2.1⟩

/-- C9: in any successful scoring run with a non-empty QI-set list, a
record unique on at least one QI-set has minimum k-anonymity 1. -/
theorem unique_count_implies_k1 (df : DataFrame) (qi_sets : List (List String))
    (scores : List RiskScore) (h : calculate_risk_scores df qi_sets = Except.ok scores)
    (hne : qi_sets ≠ []) (s : RiskScore) (hs : s ∈ scores)
    (hu : 1 ≤ s.unique_on_qi_count) : s.k_anonymity = 1 := by
  rcases risk_scores_ok_mem h hs with ⟨us, _, hall, hcount, hmin, _⟩
  have hpos : 0 < (us.filter (fun u => u.is_unique)).length := by
    rw [← hcount]
    exact hu
  rcases List.exists_mem_of_length_pos hpos with ⟨u, humem⟩
  have hu2 := List.mem_filter.mp humem
  have hk1 : u.k_anonymity = 1 := by
    have hdec := (hall u hu2.1).2
    rw [hu2.2] at hdec
    exact of_decide_eq_true hdec.symm
  rw [hmin]
  apply Nat.le_antisymm
  · have hle : pyMin (us.map (fun v => v.k_anonymity)) 1 ≤ u.k_anonymity :=
      pyMin_le_mem (List.mem_map_of_mem _ hu2.1)
    omega
  · refine le_pyMin (Nat.le_refl 1) ?_
    intro x hx
    rcases List.mem_map.mp hx with ⟨v, hv, hvx⟩
    exact hvx ▸ (hall v hv).1

/-- C9 witness: record 2 of `sampleDf` is unique on one QI-set and its
minimum k-anonymity is 1. -/
theorem unique_count_implies_k1_witness : sampleScore2.k_anonymity = 1 :=
  unique_count_implies_k1 sampleDf [["age", "zip"]] sampleScores rfl (by decide)
    sampleScore2 (by simp [sampleScores]) (by decide)

/-- C4 counterexample: on a frame whose two records both have a null
QI value, the Group Counter raises instead of grouping them together
with k = 2. -/
theorem null_qi_sentinel_counterexample :
    calculate_uniqueness nullDf ["age"]
      = Except.error "KeyError: quasi-identifier value is null" :=
  rfl

/-- C4 (amended): missing/null QI values do not participate as a
sentinel: the pandas groupby drops such rows and the per-record lookup
fails, so `calculate_uniqueness` errors on any dataset containing a
null value in a QI column. -/
theorem null_qi_errors (df : DataFrame) (qis : List String)
    (r : Row) (hr : r ∈ df.rows) (c : String) (hc : c ∈ qis)
    (hnull : r c = Value.null)
    (hcols : qis.all (fun c2 => decide (c2 ∈ df.cols)) = true) (hne : qis ≠ []) :
    ∃ e, calculate_uniqueness df qis = Except.error e := by
  rcases mem_enumFrom_of_mem 0 hr with ⟨i, hi⟩
  unfold calculate_uniqueness
  rw [if_neg (not_not_intro hcols)]
  rw [if_neg (by simpa [List.isEmpty_iff] using hne)]
  apply mapExcept_error_of_mem hi
  intro b hb
  have hcond : ((qis.map r).any (fun v => decide (v = Value.null))) = true :=
    List.any_eq_true.mpr ⟨r c, List.mem_map_of_mem r hc, decide_eq_true hnull⟩
  unfold uniquenessOfRow at hb
  rw [if_pos hcond] at hb
  cases hb

/-- C4 witness: the amended claim at the concrete null frame. -/
theorem null_qi_errors_witness :
    ∃ e, calculate_uniqueness nullDf ["age"] = Except.error e :=
  null_qi_errors nullDf ["age"] nullRow (List.mem_cons_self _ _) "age"
    (List.mem_cons_self _ _) rfl rfl (by decide)

/-- C5 counterexample: a negative limit does not make the High-Risk
Selector fail; with one high-risk score and limit -1 it returns the
empty result via Python slice semantics. -/
theorem negative_limit_counterexample :
    get_high_risk_records oneRowDf [highScore0] (-1) = Except.ok [] := by
  simp only [get_high_risk_records, pySlice]
  rw [if_neg (by decide : ¬ (0 : Int) ≤ -1)]
  rw [List.length_mergeSort]
  simp [mapExcept]

/-- C5 (amended): the High-Risk Selector never fails because of the
limit: limit 0 yields an empty result, and a negative limit acts as a
Python slice (dropping trailing entries) rather than raising. -/
theorem high_risk_selector_limit (df : DataFrame) (scores : List RiskScore)
    (hvalid : ∀ rs ∈ scores, rs.record_index < df.rows.length) :
    get_high_risk_records df scores 0 = Except.ok [] ∧
    ∀ limit : Int, limit < 0 →
      ∃ res, get_high_risk_records df scores limit = Except.ok res := by
  constructor
  · simp [get_high_risk_records, pySlice, mapExcept]
  · intro limit hlim
    unfold get_high_risk_records
    apply mapExcept_ok_of_forall
    intro rs hrs
    have h1 : rs ∈ (scores.filter (fun s => decide (s.risk_level = "high"))).mergeSort
        (fun a b => decide (b.risk_score ≤ a.risk_score)) :=
      pySlice_subset _ _ hrs
    have h2 : rs ∈ scores := List.mem_of_mem_filter (List.mem_mergeSort.mp h1)
    have h3 := hvalid rs h2
    refine ⟨HighRiskRow.mk (df.rows.get ⟨rs.record_index, h3⟩) rs.risk_score
      rs.reasoning, ?_⟩
    rw [List.get?_eq_get h3]

/-- C5 witness: the amended claim at a concrete frame and score list,
limit 0. -/
theorem high_risk_selector_limit_witness :
    get_high_risk_records oneRowDf [highScore0] 0 = Except.ok [] :=
  (high_risk_selector_limit oneRowDf [highScore0] (by decide)).1

/-- C6: appending columns to a QI-set can only split groups: each
record's k under the extended set is at most its k under the base
set. -/
theorem k_monotone_append (df : DataFrame) (A ext : List String)
    (resA resB : List UniquenessResult)
    (hA : calculate_uniqueness df A = Except.ok resA)
    (hB : calculate_uniqueness df (A ++ ext) = Except.ok resB)
    (i : Nat) (uA uB : UniquenessResult)
    (hgA : resA.get? i = some uA) (hgB : resB.get? i = some uB) :
    uB.k_anonymity ≤ uA.k_anonymity := by
  rcases calc_uniqueness_ok_get? hA hgA with ⟨r, hr, huA⟩
  rcases calc_uniqueness_ok_get? hB hgB with ⟨r2, hr2, huB⟩
  rw [hr] at hr2
  cases hr2
  rw [huA, huB]
  exact kOf_append_le df.rows A ext r

/-- C6 witness: on `monoDf`, extending [age] with zip shrinks record
0's k from 2 to 1. -/
theorem k_monotone_append_witness : uB0.k_anonymity ≤ uA0.k_anonymity :=
  k_monotone_append monoDf ["age"] ["zip"] resA0 resB0 rfl rfl 0 uA0 uB0 rfl rfl

/-- C7: in any successful Group Counter run, every record's k is at
least 1, and the sum of 1/k over all records equals the number of
distinct QI-value groups. -/
theorem k_partition_invariant (df : DataFrame) (qis : List String)
    (res : List UniquenessResult) (h : calculate_uniqueness df qis = Except.ok res) :
    (∀ u ∈ res, 1 ≤ u.k_anonymity) ∧
    (res.map (fun u => (1 : ℚ) / (u.k_anonymity : ℚ))).sum
      = (distinctGroupCount df.rows qis : ℚ) := by
  constructor
  · intro u hu
    rcases calc_uniqueness_ok_mem h hu with ⟨r, hr, hk, _⟩
    rw [hk]
    exact kOf_pos hr
  · rw [calc_uniqueness_ok_eq h, List.map_map]
    have hcomp : ((fun u : UniquenessResult => (1 : ℚ) / (u.k_anonymity : ℚ)) ∘
        (fun p : Nat × Row => uniquenessSuccess df.rows qis p.1 p.2))
        = fun p : Nat × Row => (1 : ℚ) / (kOf df.rows qis p.2 : ℚ) := rfl
    rw [hcomp,
      enumFrom_map_snd (fun r => (1 : ℚ) / (kOf df.rows qis r : ℚ)) df.rows 0]
    exact sum_inv_countP df.rows (qiKey qis)

/-- C7 witness: the partition invariant evaluated on `monoDf` with
QI-set [age]. -/
theorem k_partition_invariant_witness :
    (resA0.map (fun u => (1 : ℚ) / (u.k_anonymity : ℚ))).sum
      = (distinctGroupCount monoDf.rows ["age"] : ℚ) :=
  (k_partition_invariant monoDf ["age"] resA0 rfl).2

end RiskAssessment
